import Mathlib

/-!
Verification of the `ankiazvox` sync pipeline (`src/ankiazvox/main.py`).

The single source file defines:
  * `AnkiClient.invoke` — posts an AnkiConnect action; on any transport
    failure or service-reported error it prints a message and returns `None`
    (the exception is swallowed, never re-raised);
  * `AzureTTSManager.text_to_mp3` — external TTS call returning a success
    boolean (modelled as an oracle);
  * `clean_html` — returns `""` for falsy input, otherwise delegates to
    BeautifulSoup's `get_text` (the external part is an oracle parameter);
  * `sync` — the CLI command: load config, create the temp directory with
    `mkdir(exist_ok=True)`, `findNotes`, apply the (`if limit:`) truncation,
    `notesInfo`, the per-note loop, and a `finally` block that removes the
    temp directory whenever it exists.

External effects (RPC responses, TTS results, BeautifulSoup text extraction,
pre-existing filesystem state) are inputs of the model; the model's output
records the calls issued, the counters, the final state of the fetched
notes, and the temp-directory state at exit.
-/

namespace AnkiAzVox

/-- A note: an id plus a mapping from field names to field values
(`note["fields"]` with each entry's `"value"`). -/
structure Note where
  noteId : Nat
  fields : List (String × String)
deriving Repr, DecidableEq

/-- `note["fields"].get(name, {}).get("value", "")`: the value of a field,
or `""` when the note has no field of that name. -/
def getField (n : Note) (name : String) : String :=
  match n.fields.find? (fun p => p.1 == name) with
  | some p => p.2
  | none => ""

/-- Outcome of one AnkiConnect HTTP round trip as seen by `invoke`:
a successful response with a result, a transport-level failure
(connection error / non-2xx status), or a response whose `error`
member is non-null. -/
inductive RpcOutcome (α : Type) where
  | ok : α → RpcOutcome α
  | transportError : String → RpcOutcome α
  | serviceError : String → RpcOutcome α
deriving Repr, DecidableEq

/-- `AnkiClient.invoke`: returns the `result` member on success; any
exception (transport failure, or the `Exception` raised for a non-null
`error` member) is caught, an error message is printed, and `None` is
returned.  No exception ever propagates to the caller. -/
def AnkiClient.invoke {α : Type} (r : RpcOutcome α) : Option α :=
  match r with
  | .ok a => some a
  | .transportError _ => none
  | .serviceError _ => none

/-- Python's `str.strip()` with no argument: drop leading and trailing
whitespace characters.  Defined structurally over the character list so
that concrete runs evaluate. -/
def pyStrip (s : String) : String :=
  ⟨((s.data.dropWhile Char.isWhitespace).reverse.dropWhile
      Char.isWhitespace).reverse⟩

/-- `clean_html`: `if not raw_html: return ""`, otherwise BeautifulSoup's
`get_text(separator=" ", strip=True)`.  The BeautifulSoup call is external;
it is passed in as the oracle `soupGetText`. -/
def clean_html (soupGetText : String → String) (raw_html : String) : String :=
  if raw_html == "" then "" else soupGetText raw_html

/-- `file_name = f"azv_{source}_{note_id}.mp3"`. -/
def audioFileName (source : String) (noteId : Nat) : String :=
  "azv_" ++ source ++ "_" ++ toString noteId ++ ".mp3"

/-- The playback reference token written into the target field:
`f"[sound:{file_name}]"`. -/
def soundTag (fileName : String) : String :=
  "[sound:" ++ fileName ++ "]"

/-- External outcomes for the processing of one note, by position in the
fetched batch: the boolean returned by `text_to_mp3`, the base64 payload
read back from the temporary file, and the RPC outcomes of the
`storeMediaFile` and `updateNoteFields` calls. -/
structure NoteOracle where
  ttsOk : Bool
  audioB64 : String
  storeResp : RpcOutcome Unit
  updateResp : RpcOutcome Unit
deriving Repr, DecidableEq

/-- Oracle used when the oracle list is shorter than the batch (never the
case in any run considered below). -/
def defaultOracle : NoteOracle :=
  { ttsOk := false, audioB64 := ""
    storeResp := .transportError "", updateResp := .transportError "" }

/-- Mutable state of one run of the per-note loop: the two counters, the
arguments of every `storeMediaFile` and `updateNoteFields` request issued
(each record tagged with the note id being processed), the media files
actually accepted by Anki (requests whose RPC succeeded), the ids for which
a synthesis call was made, the number of `time.sleep(0.05)` pauses, and the
temporary files written into the temp directory. -/
structure RunState where
  success_count : Nat
  skipped_count : Nat
  mediaStored : List (Nat × String × String)
  mediaLibrary : List (String × String)
  fieldUpdates : List (Nat × String × String)
  ttsCalls : List Nat
  sleeps : Nat
  tempFilesWritten : List String
deriving Repr, DecidableEq

/-- The state at the top of the loop: both counters zero, no calls issued. -/
def initState : RunState :=
  { success_count := 0, skipped_count := 0, mediaStored := []
    mediaLibrary := [], fieldUpdates := [], ttsCalls := []
    sleeps := 0, tempFilesWritten := [] }

/-- AnkiConnect's `updateNoteFields` effect on the store: the note with the
given id gets the given field set to the given value; other notes are
untouched. -/
def updateNoteField (store : List Note) (id : Nat) (field v : String) :
    List Note :=
  store.map (fun n =>
    if n.noteId == id then
      { n with fields :=
          if n.fields.any (fun p => p.1 == field) then
            n.fields.map (fun p => if p.1 == field then (p.1, v) else p)
          else
            n.fields ++ [(field, v)] }
    else n)

/-- One iteration of the per-note loop of `sync`.  Mirrors the source:
skip (with count) when the stripped target value is non-empty and
`overwrite` is false; silently continue when `clean_html` of the stripped
source value is empty; otherwise call `text_to_mp3` and, on success, issue
`storeMediaFile` and `updateNoteFields` (their results are ignored — the
client swallows their errors), increment `success_count` and sleep. -/
def processNote (source target : String) (overwrite : Bool)
    (soupGetText : String → String) (orc : NoteOracle)
    (acc : RunState × List Note) (note : Note) : RunState × List Note :=
  let st := acc.1
  let store := acc.2
  let current_target_value := pyStrip (getField note target)
  if current_target_value != "" && !overwrite then
    ({ st with skipped_count := st.skipped_count + 1 }, store)
  else
    let raw_text := pyStrip (getField note source)
    let clean_text := clean_html soupGetText raw_text
    if clean_text == "" then
      (st, store)
    else
      let file_name := audioFileName source note.noteId
      let st1 := { st with
        ttsCalls := st.ttsCalls ++ [note.noteId]
        tempFilesWritten := st.tempFilesWritten ++ [file_name] }
      if orc.ttsOk then
        let st2 := { st1 with
          mediaStored := st1.mediaStored ++ [(note.noteId, file_name, orc.audioB64)]
          mediaLibrary :=
            match AnkiClient.invoke orc.storeResp with
            | some _ => st1.mediaLibrary ++ [(file_name, orc.audioB64)]
            | none => st1.mediaLibrary }
        let st3 := { st2 with
          fieldUpdates :=
            st2.fieldUpdates ++ [(note.noteId, target, soundTag file_name)] }
        let store' :=
          match AnkiClient.invoke orc.updateResp with
          | some _ => updateNoteField store note.noteId target (soundTag file_name)
          | none => store
        ({ st3 with success_count := st3.success_count + 1
                    sleeps := st3.sleeps + 1 }, store')
      else
        (st1, store)

/-- The whole per-note loop: `for note in tqdm(notes_data, ...)`, consuming
one oracle per fetched note, in order. -/
def runLoop (source target : String) (overwrite : Bool)
    (soupGetText : String → String) :
    List Note → List NoteOracle → RunState × List Note → RunState × List Note
  | [], _, acc => acc
  | n :: ns, orcs, acc =>
      runLoop source target overwrite soupGetText ns orcs.tail
        (processNote source target overwrite soupGetText
          (orcs.headD defaultOracle) acc n)

/-- Python truthiness of `os.getenv` results: `not s` is true when the
variable is unset (`None`) or set to the empty string. -/
def pyFalsyStr (o : Option String) : Bool :=
  match o with
  | none => true
  | some s => s == ""

/-- Python list slicing `l[:n]`: for `n ≥ 0` the first `n` elements, for
negative `n` all but the last `-n` elements (clamped at the empty list). -/
def pySliceTo {α : Type} (l : List α) (n : Int) : List α :=
  if 0 ≤ n then l.take n.toNat
  else l.take ((Int.ofNat l.length + n).toNat)

/-- `if limit: note_ids = note_ids[:limit]` — an absent limit leaves the
list alone, and so does `limit = 0`, because `0` is falsy in Python. -/
def applyLimit (limit : Option Int) (ids : List Nat) : List Nat :=
  match limit with
  | none => ids
  | some n => if n = 0 then ids else pySliceTo ids n

/-- The immutable per-run request: the CLI options of the `sync` command
that the model depends on. -/
structure SyncConfig where
  query : String
  source : String
  target : String
  tempDir : String
  limit : Option Int
  overwrite : Bool

/-- The external world of one run: configuration values, filesystem state
of the temp-directory path before the run, the RPC responses to `findNotes`
and `notesInfo`, the BeautifulSoup text extraction, and the per-note
oracles. -/
structure SyncEnv where
  ttsKey : Option String
  ttsRegion : Option String
  tempDirPreexists : Bool
  preexistingFiles : List String
  findNotesResp : RpcOutcome (List Nat)
  notesInfoResp : RpcOutcome (List Note)
  soupGetText : String → String
  oracles : List NoteOracle

/-- How a run of `sync` ended: early `return` for missing credentials
(before any side effect); the "No matching notes found." `return`
(also taken when the `findNotes` invoke failed and returned `None`);
an unhandled exception (`TypeError` from iterating `None` when the
`notesInfo` invoke failed); or normal completion of the loop. -/
inductive ExitKind where
  | configError
  | noNotes
  | crashed
  | completed
deriving Repr, DecidableEq

/-- Everything observable at the end of a run: how it exited, the loop
state, the final contents of the fetched notes, the ids passed to
`notesInfo`, whether `notesInfo` was called at all, what was reported,
the per-note failures appearing in the final report (the source keeps no
failure list, so every path reports none), and the temp-directory state. -/
structure SyncOutcome where
  exitKind : ExitKind
  state : RunState
  finalNotes : List Note
  fetchedIds : List Nat
  notesInfoCalled : Bool
  reportedNoNotes : Bool
  reportedFailures : List (Nat × String)
  tempDirCreated : Bool
  tempDirExistsAtEnd : Bool
  leftoverTempFiles : List String

/-- Outcome of the "No matching notes found." path: the `return` inside the
`try` still runs the `finally` cleanup, which removes the directory created
moments earlier by `mkdir(exist_ok=True)`. -/
def noNotesOutcome : SyncOutcome :=
  { exitKind := .noNotes, state := initState, finalNotes := []
    fetchedIds := [], notesInfoCalled := false, reportedNoNotes := true
    reportedFailures := [], tempDirCreated := true
    tempDirExistsAtEnd := false, leftoverTempFiles := [] }

/-- The `sync` command.  Missing Azure credentials return before the temp
directory is created.  Otherwise `audio_path.mkdir(exist_ok=True)` runs,
then the `try` block: `findNotes` (a failed invoke yields `None`, and
`if not note_ids` sends both `None` and `[]` down the "no notes" path),
the limit truncation, `notesInfo` (a failed invoke yields `None`, and
iterating `None` raises `TypeError`), then the loop.  The `finally` block
removes the temp directory — with all its contents, pre-existing ones
included — on every path that entered the `try`. -/
def sync (cfg : SyncConfig) (env : SyncEnv) : SyncOutcome :=
  if pyFalsyStr env.ttsKey || pyFalsyStr env.ttsRegion then
    { exitKind := .configError, state := initState, finalNotes := []
      fetchedIds := [], notesInfoCalled := false, reportedNoNotes := false
      reportedFailures := [], tempDirCreated := false
      tempDirExistsAtEnd := env.tempDirPreexists
      leftoverTempFiles := env.preexistingFiles }
  else
    match AnkiClient.invoke env.findNotesResp with
    | none => noNotesOutcome
    | some note_ids =>
      if note_ids.isEmpty then noNotesOutcome
      else
        let ids := applyLimit cfg.limit note_ids
        match AnkiClient.invoke env.notesInfoResp with
        | none =>
            { exitKind := .crashed, state := initState, finalNotes := []
              fetchedIds := ids, notesInfoCalled := true
              reportedNoNotes := false, reportedFailures := []
              tempDirCreated := true, tempDirExistsAtEnd := false
              leftoverTempFiles := [] }
        | some notes_data =>
            let res := runLoop cfg.source cfg.target cfg.overwrite
              env.soupGetText notes_data env.oracles (initState, notes_data)
            { exitKind := .completed, state := res.1, finalNotes := res.2
              fetchedIds := ids, notesInfoCalled := true
              reportedNoNotes := false, reportedFailures := []
              tempDirCreated := true, tempDirExistsAtEnd := false
              leftoverTempFiles := [] }

/-- The guard of the skip branch: stripped target value non-empty and
`overwrite` false. -/
def skipPred (target : String) (overwrite : Bool) (n : Note) : Bool :=
  (pyStrip (getField n target) != "") && !overwrite

/-- Branch equation: a note satisfying the skip guard is skip-counted and
nothing else happens — no calls, no store change. -/
theorem processNote_eq_skip (source target : String) (overwrite : Bool)
    (soup : String → String) (orc : NoteOracle) (st : RunState)
    (store : List Note) (n : Note)
    (h : (pyStrip (getField n target) != "" && !overwrite) = true) :
    processNote source target overwrite soup orc (st, store) n
      = ({ st with skipped_count := st.skipped_count + 1 }, store) := by
  simp only [processNote, h, if_true]

/-- Branch equation: a note past the skip guard whose sanitized source text
is empty is passed over silently — no counter, no calls, no store change. -/
theorem processNote_eq_silent (source target : String) (overwrite : Bool)
    (soup : String → String) (orc : NoteOracle) (st : RunState)
    (store : List Note) (n : Note)
    (h1 : (pyStrip (getField n target) != "" && !overwrite) = false)
    (h2 : (clean_html soup (pyStrip (getField n source)) == "") = true) :
    processNote source target overwrite soup orc (st, store) n = (st, store) := by
  simp only [processNote, h1, h2, Bool.false_eq_true, if_false, if_true]

/-- Branch equation: when synthesis fails, the synthesis call and the
temporary-file write are recorded, and nothing else happens — no counter
change, no store calls, no field update, no failure record. -/
theorem processNote_eq_ttsFail (source target : String) (overwrite : Bool)
    (soup : String → String) (orc : NoteOracle) (st : RunState)
    (store : List Note) (n : Note)
    (h1 : (pyStrip (getField n target) != "" && !overwrite) = false)
    (h2 : (clean_html soup (pyStrip (getField n source)) == "") = false)
    (h3 : orc.ttsOk = false) :
    processNote source target overwrite soup orc (st, store) n
      = ({ st with
            ttsCalls := st.ttsCalls ++ [n.noteId]
            tempFilesWritten :=
              st.tempFilesWritten ++ [audioFileName source n.noteId] }, store) := by
  simp only [processNote, h1, h2, h3, Bool.false_eq_true, if_false]

/-- Branch equation: when synthesis succeeds, `storeMediaFile` and
`updateNoteFields` requests are issued (the media library and the note gain
the change only if the respective RPC succeeded), the success counter is
incremented, and the pause is taken — all regardless of the two RPC
outcomes, which the swallowing client reduces to `None`. -/
theorem processNote_eq_success (source target : String) (overwrite : Bool)
    (soup : String → String) (orc : NoteOracle) (st : RunState)
    (store : List Note) (n : Note)
    (h1 : (pyStrip (getField n target) != "" && !overwrite) = false)
    (h2 : (clean_html soup (pyStrip (getField n source)) == "") = false)
    (h3 : orc.ttsOk = true) :
    processNote source target overwrite soup orc (st, store) n
      = ({ st with
            success_count := st.success_count + 1
            mediaStored := st.mediaStored
              ++ [(n.noteId, audioFileName source n.noteId, orc.audioB64)]
            mediaLibrary :=
              match AnkiClient.invoke orc.storeResp with
              | some _ => st.mediaLibrary
                  ++ [(audioFileName source n.noteId, orc.audioB64)]
              | none => st.mediaLibrary
            fieldUpdates := st.fieldUpdates
              ++ [(n.noteId, target, soundTag (audioFileName source n.noteId))]
            ttsCalls := st.ttsCalls ++ [n.noteId]
            sleeps := st.sleeps + 1
            tempFilesWritten :=
              st.tempFilesWritten ++ [audioFileName source n.noteId] },
         match AnkiClient.invoke orc.updateResp with
         | some _ => updateNoteField store n.noteId target
             (soundTag (audioFileName source n.noteId))
         | none => store) := by
  simp only [processNote, h1, h2, h3, Bool.false_eq_true, if_false, if_true]

/-- `updateNoteFields` at some other id leaves a note in place. -/
theorem updateNoteField_mem_of_ne (store : List Note) (j : Nat)
    (f v : String) (x : Note) (hx : x ∈ store) (hne : x.noteId ≠ j) :
    x ∈ updateNoteField store j f v := by
  unfold updateNoteField
  have hfix : (fun n : Note =>
      if n.noteId == j then
        { n with fields :=
            if n.fields.any (fun p => p.1 == f) then
              n.fields.map (fun p => if p.1 == f then (p.1, v) else p)
            else n.fields ++ [(f, v)] }
      else n) x = x := by
    simp [hne]
  exact hfix ▸ List.mem_map_of_mem _ hx

/-- Each loop iteration adds the skip guard's truth value to the skipped
counter and never touches the counter otherwise. -/
theorem processNote_skipped (source target : String) (overwrite : Bool)
    (soup : String → String) (orc : NoteOracle) (st : RunState)
    (store : List Note) (n : Note) :
    (processNote source target overwrite soup orc (st, store) n).1.skipped_count
      = st.skipped_count + (if skipPred target overwrite n then 1 else 0) := by
  unfold skipPred
  cases h1 : (pyStrip (getField n target) != "" && !overwrite) with
  | true =>
      rw [processNote_eq_skip source target overwrite soup orc st store n h1]
      simp
  | false =>
      cases h2 : (clean_html soup (pyStrip (getField n source)) == "") with
      | true =>
          rw [processNote_eq_silent source target overwrite soup orc st store n h1 h2]
          simp
      | false =>
          cases h3 : orc.ttsOk with
          | true =>
              rw [processNote_eq_success source target overwrite soup orc st store n h1 h2 h3]
              simp
          | false =>
              rw [processNote_eq_ttsFail source target overwrite soup orc st store n h1 h2 h3]
              simp

/-- If a note can only reach the skip branch whenever its id is `i`, then
one iteration adds no call tagged `i` and keeps every store note whose id
is `i` in place. -/
theorem processNote_untouched (source target : String) (overwrite : Bool)
    (soup : String → String) (orc : NoteOracle) (st : RunState)
    (store : List Note) (n : Note) (i : Nat)
    (hid : n.noteId = i → skipPred target overwrite n = true)
    (htts : ∀ x ∈ st.ttsCalls, x ≠ i)
    (hmed : ∀ m ∈ st.mediaStored, m.1 ≠ i)
    (hupd : ∀ u ∈ st.fieldUpdates, u.1 ≠ i) :
    (∀ x ∈ (processNote source target overwrite soup orc (st, store) n).1.ttsCalls, x ≠ i) ∧
    (∀ m ∈ (processNote source target overwrite soup orc (st, store) n).1.mediaStored, m.1 ≠ i) ∧
    (∀ u ∈ (processNote source target overwrite soup orc (st, store) n).1.fieldUpdates, u.1 ≠ i) ∧
    (∀ x ∈ store, x.noteId = i →
      x ∈ (processNote source target overwrite soup orc (st, store) n).2) := by
  cases h1 : (pyStrip (getField n target) != "" && !overwrite) with
  | true =>
      rw [processNote_eq_skip source target overwrite soup orc st store n h1]
      exact ⟨htts, hmed, hupd, fun x hx _ => hx⟩
  | false =>
      have hni : n.noteId ≠ i := by
        intro hni
        have hsp := hid hni
        rw [skipPred] at hsp
        rw [h1] at hsp
        exact Bool.false_ne_true hsp
      cases h2 : (clean_html soup (pyStrip (getField n source)) == "") with
      | true =>
          rw [processNote_eq_silent source target overwrite soup orc st store n h1 h2]
          exact ⟨htts, hmed, hupd, fun x hx _ => hx⟩
      | false =>
          cases h3 : orc.ttsOk with
          | true =>
              rw [processNote_eq_success source target overwrite soup orc st store n h1 h2 h3]
              refine ⟨?_, ?_, ?_, ?_⟩
              · intro x hx
                simp only [List.mem_append, List.mem_singleton] at hx
                rcases hx with hx | hx
                · exact htts x hx
                · rw [hx]; exact hni
              · intro m hm
                simp only [List.mem_append, List.mem_singleton] at hm
                rcases hm with hm | hm
                · exact hmed m hm
                · rw [hm]; exact hni
              · intro u hu
                simp only [List.mem_append, List.mem_singleton] at hu
                rcases hu with hu | hu
                · exact hupd u hu
                · rw [hu]; exact hni
              · intro x hx hxi
                cases AnkiClient.invoke orc.updateResp with
                | some v =>
                    exact updateNoteField_mem_of_ne store n.noteId target _ x hx
                      (by rw [hxi]; exact fun h => hni h.symm)
                | none => exact hx
          | false =>
              rw [processNote_eq_ttsFail source target overwrite soup orc st store n h1 h2 h3]
              refine ⟨?_, hmed, hupd, fun x hx _ => hx⟩
              intro x hx
              simp only [List.mem_append, List.mem_singleton] at hx
              rcases hx with hx | hx
              · exact htts x hx
              · rw [hx]; exact hni

/-- The skipped counter at the end of the loop is its initial value plus
the number of fetched notes satisfying the skip guard. -/
theorem runLoop_skipped (source target : String) (overwrite : Bool)
    (soup : String → String) (notes : List Note) :
    ∀ (orcs : List NoteOracle) (st : RunState) (store : List Note),
      (runLoop source target overwrite soup notes orcs (st, store)).1.skipped_count
        = st.skipped_count + notes.countP (skipPred target overwrite) := by
  induction notes with
  | nil => intro orcs st store; simp [runLoop]
  | cons n ns ih =>
      intro orcs st store
      rcases hp : processNote source target overwrite soup
        (orcs.headD defaultOracle) (st, store) n with ⟨st', store'⟩
      have hs := processNote_skipped source target overwrite soup
        (orcs.headD defaultOracle) st store n
      rw [hp] at hs
      simp only [runLoop, hp, ih, List.countP_cons]
      cases hsp : skipPred target overwrite n <;> simp [hsp] at hs ⊢ <;> omega

/-- If every fetched note carrying id `i` satisfies the skip guard, the
whole loop issues no call tagged `i`, and every store note with id `i`
survives the loop unchanged. -/
theorem runLoop_untouched (source target : String) (overwrite : Bool)
    (soup : String → String) (i : Nat) (notes : List Note) :
    ∀ (orcs : List NoteOracle) (st : RunState) (store : List Note),
      (∀ m ∈ notes, m.noteId = i → skipPred target overwrite m = true) →
      (∀ x ∈ st.ttsCalls, x ≠ i) →
      (∀ m ∈ st.mediaStored, m.1 ≠ i) →
      (∀ u ∈ st.fieldUpdates, u.1 ≠ i) →
      (∀ x ∈ (runLoop source target overwrite soup notes orcs (st, store)).1.ttsCalls, x ≠ i) ∧
      (∀ m ∈ (runLoop source target overwrite soup notes orcs (st, store)).1.mediaStored, m.1 ≠ i) ∧
      (∀ u ∈ (runLoop source target overwrite soup notes orcs (st, store)).1.fieldUpdates, u.1 ≠ i) ∧
      (∀ x ∈ store, x.noteId = i →
        x ∈ (runLoop source target overwrite soup notes orcs (st, store)).2) := by
  induction notes with
  | nil =>
      intro orcs st store _ h1 h2 h3
      exact ⟨h1, h2, h3, fun x hx _ => hx⟩
  | cons n ns ih =>
      intro orcs st store H h1 h2 h3
      rcases hp : processNote source target overwrite soup
        (orcs.headD defaultOracle) (st, store) n with ⟨st', store'⟩
      have hu := processNote_untouched source target overwrite soup
        (orcs.headD defaultOracle) st store n i
        (H n (List.mem_cons_self n ns)) h1 h2 h3
      rw [hp] at hu
      obtain ⟨p1, p2, p3, p4⟩ := hu
      have Hns : ∀ m ∈ ns, m.noteId = i → skipPred target overwrite m = true :=
        fun m hm => H m (List.mem_cons_of_mem n hm)
      obtain ⟨q1, q2, q3, q4⟩ := ih orcs.tail st' store' Hns p1 p2 p3
      simp only [runLoop, hp]
      exact ⟨q1, q2, q3, fun x hx hxi => q4 x (p4 x hx hxi) hxi⟩

/-- Path equation: missing credentials return before any side effect. -/
theorem sync_configError_eq (cfg : SyncConfig) (env : SyncEnv)
    (hcred : (pyFalsyStr env.ttsKey || pyFalsyStr env.ttsRegion) = true) :
    sync cfg env =
      { exitKind := .configError, state := initState, finalNotes := []
        fetchedIds := [], notesInfoCalled := false, reportedNoNotes := false
        reportedFailures := [], tempDirCreated := false
        tempDirExistsAtEnd := env.tempDirPreexists
        leftoverTempFiles := env.preexistingFiles } := by
  simp only [sync, hcred, if_true]

/-- Path equation: a failed `findNotes` invoke yields `None` and is routed
to the "No matching notes found." path. -/
theorem sync_noNotes_none (cfg : SyncConfig) (env : SyncEnv)
    (hcred : (pyFalsyStr env.ttsKey || pyFalsyStr env.ttsRegion) = false)
    (hfind : AnkiClient.invoke env.findNotesResp = none) :
    sync cfg env = noNotesOutcome := by
  simp only [sync, hcred, Bool.false_eq_true, if_false, hfind]

/-- Path equation: an empty `findNotes` result takes the "No matching notes
found." path. -/
theorem sync_noNotes_nil (cfg : SyncConfig) (env : SyncEnv)
    (hcred : (pyFalsyStr env.ttsKey || pyFalsyStr env.ttsRegion) = false)
    (hfind : AnkiClient.invoke env.findNotesResp = some []) :
    sync cfg env = noNotesOutcome := by
  simp only [sync, hcred, Bool.false_eq_true, if_false, hfind, List.isEmpty_nil,
    if_true]

/-- Path equation: a failed `notesInfo` invoke yields `None`; iterating it
raises `TypeError`, which propagates after the `finally` cleanup. -/
theorem sync_crashed_eq (cfg : SyncConfig) (env : SyncEnv) (ids : List Nat)
    (hcred : (pyFalsyStr env.ttsKey || pyFalsyStr env.ttsRegion) = false)
    (hfind : AnkiClient.invoke env.findNotesResp = some ids)
    (hne : ids ≠ [])
    (hinfo : AnkiClient.invoke env.notesInfoResp = none) :
    sync cfg env =
      { exitKind := .crashed, state := initState, finalNotes := []
        fetchedIds := applyLimit cfg.limit ids, notesInfoCalled := true
        reportedNoNotes := false, reportedFailures := []
        tempDirCreated := true, tempDirExistsAtEnd := false
        leftoverTempFiles := [] } := by
  have hie : ids.isEmpty = false := by
    cases ids with
    | nil => exact absurd rfl hne
    | cons a t => rfl
  simp only [sync, hcred, Bool.false_eq_true, if_false, hfind, hie, hinfo]

/-- Path equation: the completed run is the loop over the fetched notes,
followed by the report and the cleanup. -/
theorem sync_run_eq (cfg : SyncConfig) (env : SyncEnv) (ids : List Nat)
    (notes : List Note)
    (hcred : (pyFalsyStr env.ttsKey || pyFalsyStr env.ttsRegion) = false)
    (hfind : AnkiClient.invoke env.findNotesResp = some ids)
    (hne : ids ≠ [])
    (hinfo : AnkiClient.invoke env.notesInfoResp = some notes) :
    sync cfg env =
      { exitKind := .completed
        state := (runLoop cfg.source cfg.target cfg.overwrite env.soupGetText
          notes env.oracles (initState, notes)).1
        finalNotes := (runLoop cfg.source cfg.target cfg.overwrite env.soupGetText
          notes env.oracles (initState, notes)).2
        fetchedIds := applyLimit cfg.limit ids
        notesInfoCalled := true, reportedNoNotes := false
        reportedFailures := [], tempDirCreated := true
        tempDirExistsAtEnd := false, leftoverTempFiles := [] } := by
  have hie : ids.isEmpty = false := by
    cases ids with
    | nil => exact absurd rfl hne
    | cons a t => rfl
  simp only [sync, hcred, Bool.false_eq_true, if_false, hfind, hie, hinfo]

/-- No run, on any path, reports any per-note failure: the source keeps no
failure list. -/
theorem sync_reportedFailures (cfg : SyncConfig) (env : SyncEnv) :
    (sync cfg env).reportedFailures = [] := by
  cases hcred : (pyFalsyStr env.ttsKey || pyFalsyStr env.ttsRegion) with
  | true => rw [sync_configError_eq cfg env hcred]
  | false =>
      cases hf : AnkiClient.invoke env.findNotesResp with
      | none => rw [sync_noNotes_none cfg env hcred hf]; rfl
      | some ids =>
          cases ids with
          | nil => rw [sync_noNotes_nil cfg env hcred hf]; rfl
          | cons a t =>
              cases hi : AnkiClient.invoke env.notesInfoResp with
              | none =>
                  rw [sync_crashed_eq cfg env (a :: t) hcred hf (by simp) hi]
              | some notes =>
                  rw [sync_run_eq cfg env (a :: t) notes hcred hf (by simp) hi]

/-- The round-trip invariant of the issued requests: every
`updateNoteFields` request writes the target field, writes exactly the
bracketed tag for the per-note audio file name, and is matched by a
`storeMediaFile` request for that very file name on the same note. -/
def updatesWF (source target : String) (st : RunState) : Prop :=
  ∀ u ∈ st.fieldUpdates,
    u.2.1 = target ∧
    u.2.2 = soundTag (audioFileName source u.1) ∧
    ∃ d, (u.1, audioFileName source u.1, d) ∈ st.mediaStored

/-- One loop iteration preserves the round-trip invariant. -/
theorem processNote_updatesWF (source target : String) (overwrite : Bool)
    (soup : String → String) (orc : NoteOracle) (st : RunState)
    (store : List Note) (n : Note)
    (h : updatesWF source target st) :
    updatesWF source target
      (processNote source target overwrite soup orc (st, store) n).1 := by
  cases h1 : (pyStrip (getField n target) != "" && !overwrite) with
  | true =>
      rw [processNote_eq_skip source target overwrite soup orc st store n h1]
      exact h
  | false =>
      cases h2 : (clean_html soup (pyStrip (getField n source)) == "") with
      | true =>
          rw [processNote_eq_silent source target overwrite soup orc st store n h1 h2]
          exact h
      | false =>
          cases h3 : orc.ttsOk with
          | true =>
              rw [processNote_eq_success source target overwrite soup orc st store n h1 h2 h3]
              intro u hu
              simp only [List.mem_append, List.mem_singleton] at hu
              rcases hu with hu | hu
              · obtain ⟨e1, e2, d, hd⟩ := h u hu
                exact ⟨e1, e2, d, List.mem_append_left _ hd⟩
              · subst hu
                exact ⟨rfl, rfl, orc.audioB64,
                  List.mem_append_right _ (List.mem_singleton.mpr rfl)⟩
          | false =>
              rw [processNote_eq_ttsFail source target overwrite soup orc st store n h1 h2 h3]
              exact h

/-- The whole loop preserves the round-trip invariant. -/
theorem runLoop_updatesWF (source target : String) (overwrite : Bool)
    (soup : String → String) (notes : List Note) :
    ∀ (orcs : List NoteOracle) (st : RunState) (store : List Note),
      updatesWF source target st →
      updatesWF source target
        (runLoop source target overwrite soup notes orcs (st, store)).1 := by
  induction notes with
  | nil => intro orcs st store h; exact h
  | cons n ns ih =>
      intro orcs st store h
      rcases hp : processNote source target overwrite soup
        (orcs.headD defaultOracle) (st, store) n with ⟨st', store'⟩
      have hwf := processNote_updatesWF source target overwrite soup
        (orcs.headD defaultOracle) st store n h
      rw [hp] at hwf
      simp only [runLoop, hp]
      exact ih orcs.tail st' store' hwf

/-- Every run, on any path, ends with well-formed issued requests. -/
theorem sync_updatesWF (cfg : SyncConfig) (env : SyncEnv) :
    updatesWF cfg.source cfg.target (sync cfg env).state := by
  have hinit : updatesWF cfg.source cfg.target initState := by
    intro u hu
    simp [initState] at hu
  cases hcred : (pyFalsyStr env.ttsKey || pyFalsyStr env.ttsRegion) with
  | true => rw [sync_configError_eq cfg env hcred]; exact hinit
  | false =>
      cases hf : AnkiClient.invoke env.findNotesResp with
      | none => rw [sync_noNotes_none cfg env hcred hf]; exact hinit
      | some ids =>
          cases ids with
          | nil => rw [sync_noNotes_nil cfg env hcred hf]; exact hinit
          | cons a t =>
              cases hi : AnkiClient.invoke env.notesInfoResp with
              | none =>
                  rw [sync_crashed_eq cfg env (a :: t) hcred hf (by simp) hi]
                  exact hinit
              | some notes =>
                  rw [sync_run_eq cfg env (a :: t) notes hcred hf (by simp) hi]
                  exact runLoop_updatesWF cfg.source cfg.target cfg.overwrite
                    env.soupGetText notes env.oracles initState notes hinit

/-- Claim C1: for every note processed in a run whose stripped target-field
value is non-empty while the overwrite flag is false, the run leaves that
note unchanged in the store (in particular its target field keeps its value
from before the run), issues no synthesis call, no `storeMediaFile` request
and no `updateNoteFields` request for that note's id, and the final skipped
count equals the number of fetched notes satisfying the skip guard — one of
which is this note. -/
theorem skip_leaves_note_untouched (cfg : SyncConfig) (env : SyncEnv)
    (ids : List Nat) (notes : List Note) (n : Note)
    (hcred : (pyFalsyStr env.ttsKey || pyFalsyStr env.ttsRegion) = false)
    (hfind : AnkiClient.invoke env.findNotesResp = some ids)
    (hids : ids ≠ [])
    (hinfo : AnkiClient.invoke env.notesInfoResp = some notes)
    (hnodup : (notes.map Note.noteId).Nodup)
    (hov : cfg.overwrite = false)
    (hn : n ∈ notes)
    (hne : (pyStrip (getField n cfg.target) != "") = true) :
    n ∈ (sync cfg env).finalNotes ∧
    (∀ x ∈ (sync cfg env).state.ttsCalls, x ≠ n.noteId) ∧
    (∀ m ∈ (sync cfg env).state.mediaStored, m.1 ≠ n.noteId) ∧
    (∀ u ∈ (sync cfg env).state.fieldUpdates, u.1 ≠ n.noteId) ∧
    (sync cfg env).state.skipped_count
      = notes.countP (skipPred cfg.target cfg.overwrite) := by
  rw [sync_run_eq cfg env ids notes hcred hfind hids hinfo]
  have hskip : ∀ m ∈ notes, m.noteId = n.noteId →
      skipPred cfg.target cfg.overwrite m = true := by
    intro m hm hid
    have hmn : m = n :=
      List.inj_on_of_nodup_map hnodup hm hn hid
    subst hmn
    unfold skipPred
    rw [hov]
    simp only [Bool.not_false, Bool.and_true]
    exact hne
  obtain ⟨q1, q2, q3, q4⟩ := runLoop_untouched cfg.source cfg.target
    cfg.overwrite env.soupGetText n.noteId notes env.oracles initState notes
    hskip (by intro x hx; simp [initState] at hx)
    (by intro m hm; simp [initState] at hm)
    (by intro u hu; simp [initState] at hu)
  have hcnt := runLoop_skipped cfg.source cfg.target cfg.overwrite
    env.soupGetText notes env.oracles initState notes
  exact ⟨q4 n hn rfl, q1, q2, q3, by rw [hcnt]; simp [initState]⟩

/-- Witness for C1: a two-note batch, the first with a filled target field,
under `overwrite = false`; the first note survives untouched, untargeted by
any call, and the skipped count is one. -/
theorem skip_leaves_note_untouched_witness :
    ({ noteId := 301, fields := [("Front", "bonjour"), ("Audio", "[sound:old.mp3]")] } : Note)
      ∈ (sync
        { query := "deck:D", source := "Front", target := "Audio"
          tempDir := "temp_audios", limit := none, overwrite := false }
        { ttsKey := some "k", ttsRegion := some "r", tempDirPreexists := false
          preexistingFiles := []
          findNotesResp := .ok [301, 302]
          notesInfoResp := .ok
            [{ noteId := 301, fields := [("Front", "bonjour"), ("Audio", "[sound:old.mp3]")] },
             { noteId := 302, fields := [("Front", "salut"), ("Audio", "")] }]
          soupGetText := fun s => s
          oracles :=
            [{ ttsOk := true, audioB64 := "QQ==", storeResp := .ok (), updateResp := .ok () },
             { ttsOk := true, audioB64 := "Qg==", storeResp := .ok (), updateResp := .ok () }] }).finalNotes ∧
    (∀ x ∈ (sync
        { query := "deck:D", source := "Front", target := "Audio"
          tempDir := "temp_audios", limit := none, overwrite := false }
        { ttsKey := some "k", ttsRegion := some "r", tempDirPreexists := false
          preexistingFiles := []
          findNotesResp := .ok [301, 302]
          notesInfoResp := .ok
            [{ noteId := 301, fields := [("Front", "bonjour"), ("Audio", "[sound:old.mp3]")] },
             { noteId := 302, fields := [("Front", "salut"), ("Audio", "")] }]
          soupGetText := fun s => s
          oracles :=
            [{ ttsOk := true, audioB64 := "QQ==", storeResp := .ok (), updateResp := .ok () },
             { ttsOk := true, audioB64 := "Qg==", storeResp := .ok (), updateResp := .ok () }] }).state.ttsCalls, x ≠ 301) ∧
    (∀ m ∈ (sync
        { query := "deck:D", source := "Front", target := "Audio"
          tempDir := "temp_audios", limit := none, overwrite := false }
        { ttsKey := some "k", ttsRegion := some "r", tempDirPreexists := false
          preexistingFiles := []
          findNotesResp := .ok [301, 302]
          notesInfoResp := .ok
            [{ noteId := 301, fields := [("Front", "bonjour"), ("Audio", "[sound:old.mp3]")] },
             { noteId := 302, fields := [("Front", "salut"), ("Audio", "")] }]
          soupGetText := fun s => s
          oracles :=
            [{ ttsOk := true, audioB64 := "QQ==", storeResp := .ok (), updateResp := .ok () },
             { ttsOk := true, audioB64 := "Qg==", storeResp := .ok (), updateResp := .ok () }] }).state.mediaStored, m.1 ≠ 301) ∧
    (∀ u ∈ (sync
        { query := "deck:D", source := "Front", target := "Audio"
          tempDir := "temp_audios", limit := none, overwrite := false }
        { ttsKey := some "k", ttsRegion := some "r", tempDirPreexists := false
          preexistingFiles := []
          findNotesResp := .ok [301, 302]
          notesInfoResp := .ok
            [{ noteId := 301, fields := [("Front", "bonjour"), ("Audio", "[sound:old.mp3]")] },
             { noteId := 302, fields := [("Front", "salut"), ("Audio", "")] }]
          soupGetText := fun s => s
          oracles :=
            [{ ttsOk := true, audioB64 := "QQ==", storeResp := .ok (), updateResp := .ok () },
             { ttsOk := true, audioB64 := "Qg==", storeResp := .ok (), updateResp := .ok () }] }).state.fieldUpdates, u.1 ≠ 301) ∧
    (sync
        { query := "deck:D", source := "Front", target := "Audio"
          tempDir := "temp_audios", limit := none, overwrite := false }
        { ttsKey := some "k", ttsRegion := some "r", tempDirPreexists := false
          preexistingFiles := []
          findNotesResp := .ok [301, 302]
          notesInfoResp := .ok
            [{ noteId := 301, fields := [("Front", "bonjour"), ("Audio", "[sound:old.mp3]")] },
             { noteId := 302, fields := [("Front", "salut"), ("Audio", "")] }]
          soupGetText := fun s => s
          oracles :=
            [{ ttsOk := true, audioB64 := "QQ==", storeResp := .ok (), updateResp := .ok () },
             { ttsOk := true, audioB64 := "Qg==", storeResp := .ok (), updateResp := .ok () }] }).state.skipped_count
      = ([{ noteId := 301, fields := [("Front", "bonjour"), ("Audio", "[sound:old.mp3]")] },
          { noteId := 302, fields := [("Front", "salut"), ("Audio", "")] }] : List Note).countP
          (skipPred "Audio" false) :=
  skip_leaves_note_untouched
    { query := "deck:D", source := "Front", target := "Audio"
      tempDir := "temp_audios", limit := none, overwrite := false }
    { ttsKey := some "k", ttsRegion := some "r", tempDirPreexists := false
      preexistingFiles := []
      findNotesResp := .ok [301, 302]
      notesInfoResp := .ok
        [{ noteId := 301, fields := [("Front", "bonjour"), ("Audio", "[sound:old.mp3]")] },
         { noteId := 302, fields := [("Front", "salut"), ("Audio", "")] }]
      soupGetText := fun s => s
      oracles :=
        [{ ttsOk := true, audioB64 := "QQ==", storeResp := .ok (), updateResp := .ok () },
         { ttsOk := true, audioB64 := "Qg==", storeResp := .ok (), updateResp := .ok () }] }
    [301, 302]
    [{ noteId := 301, fields := [("Front", "bonjour"), ("Audio", "[sound:old.mp3]")] },
     { noteId := 302, fields := [("Front", "salut"), ("Audio", "")] }]
    { noteId := 301, fields := [("Front", "bonjour"), ("Audio", "[sound:old.mp3]")] }
    rfl rfl (by decide) rfl (by decide) rfl
    (by decide) (by decide)

/-- Claim C2: on every exit path that starts the run (normal completion,
empty result set, or an error after the run started — including the
`TypeError` crash from a failed `notesInfo` invoke and the error-swallowed
`findNotes` failure), the temp directory is removed by the `finally` block
and no temporary file is left behind. -/
theorem cleanup_every_exit (cfg : SyncConfig) (env : SyncEnv)
    (hcred : (pyFalsyStr env.ttsKey || pyFalsyStr env.ttsRegion) = false) :
    (sync cfg env).tempDirExistsAtEnd = false ∧
    (sync cfg env).leftoverTempFiles = [] := by
  cases hf : AnkiClient.invoke env.findNotesResp with
  | none => rw [sync_noNotes_none cfg env hcred hf]; exact ⟨rfl, rfl⟩
  | some ids =>
      cases ids with
      | nil => rw [sync_noNotes_nil cfg env hcred hf]; exact ⟨rfl, rfl⟩
      | cons a t =>
          cases hi : AnkiClient.invoke env.notesInfoResp with
          | none =>
              rw [sync_crashed_eq cfg env (a :: t) hcred hf (by simp) hi]
              exact ⟨rfl, rfl⟩
          | some notes =>
              rw [sync_run_eq cfg env (a :: t) notes hcred hf (by simp) hi]
              exact ⟨rfl, rfl⟩

/-- Witness for C2: a run that crashes mid-way (`notesInfo` invoke failed,
iterating `None` raises) still ends with the temp directory removed. -/
theorem cleanup_every_exit_witness :
    (sync
      { query := "deck:D", source := "Front", target := "Audio"
        tempDir := "temp_audios", limit := none, overwrite := false }
      { ttsKey := some "k", ttsRegion := some "r", tempDirPreexists := false
        preexistingFiles := []
        findNotesResp := .ok [7]
        notesInfoResp := .transportError "connection refused"
        soupGetText := fun s => s
        oracles := [] }).tempDirExistsAtEnd = false ∧
    (sync
      { query := "deck:D", source := "Front", target := "Audio"
        tempDir := "temp_audios", limit := none, overwrite := false }
      { ttsKey := some "k", ttsRegion := some "r", tempDirPreexists := false
        preexistingFiles := []
        findNotesResp := .ok [7]
        notesInfoResp := .transportError "connection refused"
        soupGetText := fun s => s
        oracles := [] }).leftoverTempFiles = [] :=
  cleanup_every_exit
    { query := "deck:D", source := "Front", target := "Audio"
      tempDir := "temp_audios", limit := none, overwrite := false }
    { ttsKey := some "k", ttsRegion := some "r", tempDirPreexists := false
      preexistingFiles := []
      findNotesResp := .ok [7]
      notesInfoResp := .transportError "connection refused"
      soupGetText := fun s => s
      oracles := [] }
    rfl

/-- Claim C3: every `updateNoteFields` request issued by a run writes the
configured target field, writes exactly the bracketed tag
`[sound:<filename>]` for the per-note audio file name (derived from the
source field name and the note id with the fixed `.mp3` extension by
`audioFileName`), and that very file name was passed to a `storeMediaFile`
request for the same note. -/
theorem roundtrip_update_matches_store (cfg : SyncConfig) (env : SyncEnv)
    (u : Nat × String × String)
    (hu : u ∈ (sync cfg env).state.fieldUpdates) :
    u.2.1 = cfg.target ∧
    u.2.2 = soundTag (audioFileName cfg.source u.1) ∧
    ∃ d, (u.1, audioFileName cfg.source u.1, d)
      ∈ (sync cfg env).state.mediaStored :=
  sync_updatesWF cfg env u hu

/-- Witness for C3: in a one-note successful run, the single update request
writes `[sound:azv_Front_401.mp3]` into `Audio` and the same file name was
uploaded. -/
theorem roundtrip_update_matches_store_witness :
    (401, "Audio", "[sound:azv_Front_401.mp3]").2.1 = "Audio" ∧
    (401, "Audio", "[sound:azv_Front_401.mp3]").2.2
      = soundTag (audioFileName "Front" (401, "Audio", "[sound:azv_Front_401.mp3]").1) ∧
    ∃ d, ((401, "Audio", "[sound:azv_Front_401.mp3]").1,
        audioFileName "Front" (401, "Audio", "[sound:azv_Front_401.mp3]").1, d)
      ∈ (sync
        { query := "deck:D", source := "Front", target := "Audio"
          tempDir := "temp_audios", limit := none, overwrite := false }
        { ttsKey := some "k", ttsRegion := some "r", tempDirPreexists := false
          preexistingFiles := []
          findNotesResp := .ok [401]
          notesInfoResp := .ok [{ noteId := 401, fields := [("Front", "hola"), ("Audio", "")] }]
          soupGetText := fun s => s
          oracles := [{ ttsOk := true, audioB64 := "Qw==", storeResp := .ok (), updateResp := .ok () }] }).state.mediaStored :=
  roundtrip_update_matches_store
    { query := "deck:D", source := "Front", target := "Audio"
      tempDir := "temp_audios", limit := none, overwrite := false }
    { ttsKey := some "k", ttsRegion := some "r", tempDirPreexists := false
      preexistingFiles := []
      findNotesResp := .ok [401]
      notesInfoResp := .ok [{ noteId := 401, fields := [("Front", "hola"), ("Audio", "")] }]
      soupGetText := fun s => s
      oracles := [{ ttsOk := true, audioB64 := "Qw==", storeResp := .ok (), updateResp := .ok () }] }
    (401, "Audio", "[sound:azv_Front_401.mp3]")
    (by decide)

/-- Counterexample to C4 as stated: synthesis fails for 1 of 2 notes; the
run completes with 1 updated, but the final report contains zero per-note
failures — no failure (note id plus reason) is recorded anywhere, because
the source keeps no failure list at all. -/
theorem synthesis_failure_not_recorded_cex :
    (sync
      { query := "deck:D", source := "Front", target := "Audio"
        tempDir := "temp_audios", limit := none, overwrite := false }
      { ttsKey := some "k", ttsRegion := some "r", tempDirPreexists := false
        preexistingFiles := []
        findNotesResp := .ok [501, 502]
        notesInfoResp := .ok
          [{ noteId := 501, fields := [("Front", "uno"), ("Audio", "")] },
           { noteId := 502, fields := [("Front", "dos"), ("Audio", "")] }]
        soupGetText := fun s => s
        oracles :=
          [{ ttsOk := false, audioB64 := "", storeResp := .ok (), updateResp := .ok () },
           { ttsOk := true, audioB64 := "RQ==", storeResp := .ok (), updateResp := .ok () }] }).exitKind
      = ExitKind.completed ∧
    (sync
      { query := "deck:D", source := "Front", target := "Audio"
        tempDir := "temp_audios", limit := none, overwrite := false }
      { ttsKey := some "k", ttsRegion := some "r", tempDirPreexists := false
        preexistingFiles := []
        findNotesResp := .ok [501, 502]
        notesInfoResp := .ok
          [{ noteId := 501, fields := [("Front", "uno"), ("Audio", "")] },
           { noteId := 502, fields := [("Front", "dos"), ("Audio", "")] }]
        soupGetText := fun s => s
        oracles :=
          [{ ttsOk := false, audioB64 := "", storeResp := .ok (), updateResp := .ok () },
           { ttsOk := true, audioB64 := "RQ==", storeResp := .ok (), updateResp := .ok () }] }).state.success_count
      = 1 ∧
    ¬ (sync
      { query := "deck:D", source := "Front", target := "Audio"
        tempDir := "temp_audios", limit := none, overwrite := false }
      { ttsKey := some "k", ttsRegion := some "r", tempDirPreexists := false
        preexistingFiles := []
        findNotesResp := .ok [501, 502]
        notesInfoResp := .ok
          [{ noteId := 501, fields := [("Front", "uno"), ("Audio", "")] },
           { noteId := 502, fields := [("Front", "dos"), ("Audio", "")] }]
        soupGetText := fun s => s
        oracles :=
          [{ ttsOk := false, audioB64 := "", storeResp := .ok (), updateResp := .ok () },
           { ttsOk := true, audioB64 := "RQ==", storeResp := .ok (), updateResp := .ok () }] }).reportedFailures.length
      = 1 := by
  refine ⟨rfl, rfl, ?_⟩
  decide

/-- Claim C4 amended: for every note whose speech synthesis fails, the run
does not update that note's target field, changes neither counter, records
only the synthesis attempt and its temporary file, and continues with the
next note — but no per-note failure is recorded, and the final summary of
any run reports no failures whatsoever. -/
theorem synthesis_failure_silent_continue (source target : String)
    (overwrite : Bool) (soup : String → String) (orc : NoteOracle)
    (st : RunState) (store : List Note) (n : Note)
    (cfg : SyncConfig) (env : SyncEnv)
    (h1 : (pyStrip (getField n target) != "" && !overwrite) = false)
    (h2 : (clean_html soup (pyStrip (getField n source)) == "") = false)
    (h3 : orc.ttsOk = false) :
    processNote source target overwrite soup orc (st, store) n
      = ({ st with
            ttsCalls := st.ttsCalls ++ [n.noteId]
            tempFilesWritten :=
              st.tempFilesWritten ++ [audioFileName source n.noteId] }, store) ∧
    (sync cfg env).reportedFailures = [] :=
  ⟨processNote_eq_ttsFail source target overwrite soup orc st store n h1 h2 h3,
   sync_reportedFailures cfg env⟩

/-- Witness for C4 amended: a note whose synthesis fails leaves state and
store unchanged apart from the recorded attempt, and the accompanying run
reports no failures. -/
theorem synthesis_failure_silent_continue_witness :
    processNote "Front" "Audio" false (fun s => s)
      { ttsOk := false, audioB64 := "", storeResp := .ok (), updateResp := .ok () }
      (initState, [{ noteId := 601, fields := [("Front", "uno"), ("Audio", "")] }])
      { noteId := 601, fields := [("Front", "uno"), ("Audio", "")] }
      = ({ initState with
            ttsCalls := initState.ttsCalls ++ [(601 : Nat)]
            tempFilesWritten :=
              initState.tempFilesWritten ++ [audioFileName "Front" 601] },
         [{ noteId := 601, fields := [("Front", "uno"), ("Audio", "")] }]) ∧
    (sync
      { query := "deck:D", source := "Front", target := "Audio"
        tempDir := "temp_audios", limit := none, overwrite := false }
      { ttsKey := some "k", ttsRegion := some "r", tempDirPreexists := false
        preexistingFiles := []
        findNotesResp := .ok [601]
        notesInfoResp := .ok [{ noteId := 601, fields := [("Front", "uno"), ("Audio", "")] }]
        soupGetText := fun s => s
        oracles := [{ ttsOk := false, audioB64 := "", storeResp := .ok (), updateResp := .ok () }] }).reportedFailures
      = [] :=
  synthesis_failure_silent_continue "Front" "Audio" false (fun s => s)
    { ttsOk := false, audioB64 := "", storeResp := .ok (), updateResp := .ok () }
    initState [{ noteId := 601, fields := [("Front", "uno"), ("Audio", "")] }]
    { noteId := 601, fields := [("Front", "uno"), ("Audio", "")] }
    { query := "deck:D", source := "Front", target := "Audio"
      tempDir := "temp_audios", limit := none, overwrite := false }
    { ttsKey := some "k", ttsRegion := some "r", tempDirPreexists := false
      preexistingFiles := []
      findNotesResp := .ok [601]
      notesInfoResp := .ok [{ noteId := 601, fields := [("Front", "uno"), ("Audio", "")] }]
      soupGetText := fun s => s
      oracles := [{ ttsOk := false, audioB64 := "", storeResp := .ok (), updateResp := .ok () }] }
    (by decide) (by decide) rfl

/-- Counterexample to C5 as stated: a note whose source field sanitizes to
empty but whose target field is non-empty (with `overwrite = false`) is
counted as skipped — the skip check runs before the source field is ever
read, so the note does count toward the skipped counter. -/
theorem empty_source_counted_skipped_cex :
    (sync
      { query := "deck:D", source := "Front", target := "Audio"
        tempDir := "temp_audios", limit := none, overwrite := false }
      { ttsKey := some "k", ttsRegion := some "r", tempDirPreexists := false
        preexistingFiles := []
        findNotesResp := .ok [701]
        notesInfoResp := .ok
          [{ noteId := 701, fields := [("Front", ""), ("Audio", "[sound:x.mp3]")] }]
        soupGetText := fun s => s
        oracles := [{ ttsOk := true, audioB64 := "", storeResp := .ok (), updateResp := .ok () }] }).state.skipped_count
      = 1 ∧
    clean_html (fun s => s)
      (pyStrip (getField
        { noteId := 701, fields := [("Front", ""), ("Audio", "[sound:x.mp3]")] } "Front"))
      = "" := by
  exact ⟨rfl, rfl⟩

/-- Claim C5 amended: for every note that passes the idempotency check
(stripped target empty, or overwrite set) and whose source field sanitizes
to empty text, the iteration changes nothing at all: no counter moves, no
call is issued, and the store is left as it was.  (A note whose source
sanitizes to empty but which fails the idempotency check is counted as
skipped instead.) -/
theorem empty_sanitized_silent (source target : String) (overwrite : Bool)
    (soup : String → String) (orc : NoteOracle) (st : RunState)
    (store : List Note) (n : Note)
    (h1 : (pyStrip (getField n target) != "" && !overwrite) = false)
    (h2 : clean_html soup (pyStrip (getField n source)) = "") :
    processNote source target overwrite soup orc (st, store) n = (st, store) :=
  processNote_eq_silent source target overwrite soup orc st store n h1
    (by rw [h2]; rfl)

/-- Witness for C5 amended: a note with an empty target field and an
empty-sanitizing source field is passed over with nothing changed. -/
theorem empty_sanitized_silent_witness :
    processNote "Front" "Audio" false (fun s => s)
      { ttsOk := true, audioB64 := "", storeResp := .ok (), updateResp := .ok () }
      (initState, [{ noteId := 702, fields := [("Front", "   "), ("Audio", "")] }])
      { noteId := 702, fields := [("Front", "   "), ("Audio", "")] }
      = (initState, [{ noteId := 702, fields := [("Front", "   "), ("Audio", "")] }]) :=
  empty_sanitized_silent "Front" "Audio" false (fun s => s)
    { ttsOk := true, audioB64 := "", storeResp := .ok (), updateResp := .ok () }
    initState [{ noteId := 702, fields := [("Front", "   "), ("Audio", "")] }]
    { noteId := 702, fields := [("Front", "   "), ("Audio", "")] }
    (by decide) (by decide)

/-- Counterexample to C6 as stated: with valid credentials and a
`findNotes` call that fails with a transport error, the run does not abort
— `invoke` swallows the exception and returns `None`, and the run reports
"No matching notes found." and returns normally, exactly the empty-result
path the claim rules out. -/
theorem find_failure_treated_as_empty_cex :
    (sync
      { query := "deck:D", source := "Front", target := "Audio"
        tempDir := "temp_audios", limit := none, overwrite := false }
      { ttsKey := some "k", ttsRegion := some "r", tempDirPreexists := false
        preexistingFiles := []
        findNotesResp := .transportError "connection refused"
        notesInfoResp := .ok []
        soupGetText := fun s => s
        oracles := [] }).exitKind = ExitKind.noNotes ∧
    (sync
      { query := "deck:D", source := "Front", target := "Audio"
        tempDir := "temp_audios", limit := none, overwrite := false }
      { ttsKey := some "k", ttsRegion := some "r", tempDirPreexists := false
        preexistingFiles := []
        findNotesResp := .transportError "connection refused"
        notesInfoResp := .ok []
        soupGetText := fun s => s
        oracles := [] }).reportedNoNotes = true :=
  ⟨rfl, rfl⟩

/-- Claim C6 amended: a failed `findNotes` invoke is swallowed and routed
to the normal "No matching notes found." exit (no abort, no non-zero
signal); a failed `notesInfo` invoke, after a successful non-empty
`findNotes`, makes the run crash with an unhandled `TypeError`
(a non-zero exit, though not a store-specific message), after the cleanup
has run. -/
theorem store_failure_exit_paths (cfg : SyncConfig) (env : SyncEnv)
    (hcred : (pyFalsyStr env.ttsKey || pyFalsyStr env.ttsRegion) = false) :
    (AnkiClient.invoke env.findNotesResp = none →
      (sync cfg env).exitKind = ExitKind.noNotes ∧
      (sync cfg env).reportedNoNotes = true) ∧
    (∀ ids, AnkiClient.invoke env.findNotesResp = some ids → ids ≠ [] →
      AnkiClient.invoke env.notesInfoResp = none →
      (sync cfg env).exitKind = ExitKind.crashed ∧
      (sync cfg env).tempDirExistsAtEnd = false) := by
  constructor
  · intro hf
    rw [sync_noNotes_none cfg env hcred hf]
    exact ⟨rfl, rfl⟩
  · intro ids hf hne hi
    rw [sync_crashed_eq cfg env ids hcred hf hne hi]
    exact ⟨rfl, rfl⟩

/-- Witness for C6 amended: a concrete environment whose `findNotes` fails
takes the "no notes" path. -/
theorem store_failure_exit_paths_witness :
    ((AnkiClient.invoke
        (RpcOutcome.transportError "connection refused" : RpcOutcome (List Nat)) = none →
      (sync
        { query := "deck:D", source := "Front", target := "Audio"
          tempDir := "temp_audios", limit := none, overwrite := false }
        { ttsKey := some "k", ttsRegion := some "r", tempDirPreexists := false
          preexistingFiles := []
          findNotesResp := .transportError "connection refused"
          notesInfoResp := .ok []
          soupGetText := fun s => s
          oracles := [] }).exitKind = ExitKind.noNotes ∧
      (sync
        { query := "deck:D", source := "Front", target := "Audio"
          tempDir := "temp_audios", limit := none, overwrite := false }
        { ttsKey := some "k", ttsRegion := some "r", tempDirPreexists := false
          preexistingFiles := []
          findNotesResp := .transportError "connection refused"
          notesInfoResp := .ok []
          soupGetText := fun s => s
          oracles := [] }).reportedNoNotes = true) ∧
    (∀ ids, AnkiClient.invoke
        (RpcOutcome.transportError "connection refused" : RpcOutcome (List Nat)) = some ids →
      ids ≠ [] →
      AnkiClient.invoke (RpcOutcome.ok ([] : List Note)) = none →
      (sync
        { query := "deck:D", source := "Front", target := "Audio"
          tempDir := "temp_audios", limit := none, overwrite := false }
        { ttsKey := some "k", ttsRegion := some "r", tempDirPreexists := false
          preexistingFiles := []
          findNotesResp := .transportError "connection refused"
          notesInfoResp := .ok []
          soupGetText := fun s => s
          oracles := [] }).exitKind = ExitKind.crashed ∧
      (sync
        { query := "deck:D", source := "Front", target := "Audio"
          tempDir := "temp_audios", limit := none, overwrite := false }
        { ttsKey := some "k", ttsRegion := some "r", tempDirPreexists := false
          preexistingFiles := []
          findNotesResp := .transportError "connection refused"
          notesInfoResp := .ok []
          soupGetText := fun s => s
          oracles := [] }).tempDirExistsAtEnd = false)) :=
  store_failure_exit_paths
    { query := "deck:D", source := "Front", target := "Audio"
      tempDir := "temp_audios", limit := none, overwrite := false }
    { ttsKey := some "k", ttsRegion := some "r", tempDirPreexists := false
      preexistingFiles := []
      findNotesResp := .transportError "connection refused"
      notesInfoResp := .ok []
      soupGetText := fun s => s
      oracles := [] }
    rfl

/-- Counterexample to C7 as stated: a supplied limit of `0` on a 5-note
match processes all 5 ids, not `min(0, 5) = 0` of them — `if limit:` treats
`0` as falsy, so the truncation is skipped entirely. -/
theorem limit_zero_not_applied_cex :
    (sync
      { query := "deck:D", source := "Front", target := "Audio"
        tempDir := "temp_audios", limit := some 0, overwrite := false }
      { ttsKey := some "k", ttsRegion := some "r", tempDirPreexists := false
        preexistingFiles := []
        findNotesResp := .ok [1, 2, 3, 4, 5]
        notesInfoResp := .transportError "down"
        soupGetText := fun s => s
        oracles := [] }).fetchedIds = [1, 2, 3, 4, 5] ∧
    (sync
      { query := "deck:D", source := "Front", target := "Audio"
        tempDir := "temp_audios", limit := some 0, overwrite := false }
      { ttsKey := some "k", ttsRegion := some "r", tempDirPreexists := false
        preexistingFiles := []
        findNotesResp := .ok [1, 2, 3, 4, 5]
        notesInfoResp := .transportError "down"
        soupGetText := fun s => s
        oracles := [] }).fetchedIds
      ≠ ([1, 2, 3, 4, 5] : List Nat).take (min 0 ([1, 2, 3, 4, 5] : List Nat).length) := by
  refine ⟨rfl, ?_⟩
  decide

/-- Claim C7 amended: for every supplied positive limit `N ≥ 1`, the run
fetches exactly `ids.take N` — the first `min(N, length)` ids in the order
returned by the store, no re-sorting.  (A supplied limit of `0` is falsy in
Python and leaves the id list untruncated.) -/
theorem positive_limit_takes_first (cfg : SyncConfig) (env : SyncEnv)
    (ids : List Nat) (n : Int)
    (hcred : (pyFalsyStr env.ttsKey || pyFalsyStr env.ttsRegion) = false)
    (hfind : AnkiClient.invoke env.findNotesResp = some ids)
    (hids : ids ≠ [])
    (hlim : cfg.limit = some n) (hpos : 1 ≤ n) :
    (sync cfg env).fetchedIds = ids.take n.toNat ∧
    (sync cfg env).fetchedIds.length = min n.toNat ids.length := by
  have happ : applyLimit cfg.limit ids = ids.take n.toNat := by
    rw [hlim]
    unfold applyLimit pySliceTo
    have hne0 : ¬ n = 0 := by omega
    have hge : 0 ≤ n := by omega
    simp [hne0, hge]
  have hfetch : (sync cfg env).fetchedIds = applyLimit cfg.limit ids := by
    cases hi : AnkiClient.invoke env.notesInfoResp with
    | none => rw [sync_crashed_eq cfg env ids hcred hfind hids hi]
    | some notes => rw [sync_run_eq cfg env ids notes hcred hfind hids hi]
  rw [hfetch, happ]
  exact ⟨rfl, List.length_take _ _⟩

/-- Witness for C7 amended: limit 1 on a 5-note match fetches exactly the
store's first id. -/
theorem positive_limit_takes_first_witness :
    (sync
      { query := "deck:D", source := "Front", target := "Audio"
        tempDir := "temp_audios", limit := some 1, overwrite := false }
      { ttsKey := some "k", ttsRegion := some "r", tempDirPreexists := false
        preexistingFiles := []
        findNotesResp := .ok [11, 12, 13, 14, 15]
        notesInfoResp := .transportError "down"
        soupGetText := fun s => s
        oracles := [] }).fetchedIds = ([11, 12, 13, 14, 15] : List Nat).take (1 : Int).toNat ∧
    (sync
      { query := "deck:D", source := "Front", target := "Audio"
        tempDir := "temp_audios", limit := some 1, overwrite := false }
      { ttsKey := some "k", ttsRegion := some "r", tempDirPreexists := false
        preexistingFiles := []
        findNotesResp := .ok [11, 12, 13, 14, 15]
        notesInfoResp := .transportError "down"
        soupGetText := fun s => s
        oracles := [] }).fetchedIds.length
      = min (1 : Int).toNat ([11, 12, 13, 14, 15] : List Nat).length :=
  positive_limit_takes_first
    { query := "deck:D", source := "Front", target := "Audio"
      tempDir := "temp_audios", limit := some 1, overwrite := false }
    { ttsKey := some "k", ttsRegion := some "r", tempDirPreexists := false
      preexistingFiles := []
      findNotesResp := .ok [11, 12, 13, 14, 15]
      notesInfoResp := .transportError "down"
      soupGetText := fun s => s
      oracles := [] }
    [11, 12, 13, 14, 15] 1
    rfl rfl (by decide) rfl (by decide)

/-- Counterexample to C8 as stated: on a zero-match query the temp
directory IS created — `mkdir(exist_ok=True)` runs before `findNotes` —
even though the claim says nothing is created. -/
theorem empty_result_tempdir_created_cex :
    (sync
      { query := "deck:D", source := "Front", target := "Audio"
        tempDir := "temp_audios", limit := none, overwrite := false }
      { ttsKey := some "k", ttsRegion := some "r", tempDirPreexists := false
        preexistingFiles := []
        findNotesResp := .ok []
        notesInfoResp := .ok []
        soupGetText := fun s => s
        oracles := [] }).tempDirCreated = true ∧
    (sync
      { query := "deck:D", source := "Front", target := "Audio"
        tempDir := "temp_audios", limit := none, overwrite := false }
      { ttsKey := some "k", ttsRegion := some "r", tempDirPreexists := false
        preexistingFiles := []
        findNotesResp := .ok []
        notesInfoResp := .ok []
        soupGetText := fun s => s
        oracles := [] }).reportedNoNotes = true :=
  ⟨rfl, rfl⟩

/-- Claim C8 amended: a zero-match query reports "no notes" and ends with
the loop state untouched (0 updated, 0 skipped, no calls issued) and
without calling `notesInfo`; the temp directory is created before the
search but removed by the cleanup, so none is left behind. -/
theorem empty_result_outcome (cfg : SyncConfig) (env : SyncEnv)
    (hcred : (pyFalsyStr env.ttsKey || pyFalsyStr env.ttsRegion) = false)
    (hfind : AnkiClient.invoke env.findNotesResp = some []) :
    (sync cfg env).reportedNoNotes = true ∧
    (sync cfg env).state = initState ∧
    (sync cfg env).notesInfoCalled = false ∧
    (sync cfg env).tempDirCreated = true ∧
    (sync cfg env).tempDirExistsAtEnd = false ∧
    (sync cfg env).leftoverTempFiles = [] := by
  rw [sync_noNotes_nil cfg env hcred hfind]
  exact ⟨rfl, rfl, rfl, rfl, rfl, rfl⟩

/-- Witness for C8 amended: a concrete zero-match run. -/
theorem empty_result_outcome_witness :
    (sync
      { query := "deck:Empty", source := "Front", target := "Audio"
        tempDir := "temp_audios", limit := none, overwrite := false }
      { ttsKey := some "k", ttsRegion := some "r", tempDirPreexists := false
        preexistingFiles := []
        findNotesResp := .ok []
        notesInfoResp := .ok []
        soupGetText := fun s => s
        oracles := [] }).reportedNoNotes = true ∧
    (sync
      { query := "deck:Empty", source := "Front", target := "Audio"
        tempDir := "temp_audios", limit := none, overwrite := false }
      { ttsKey := some "k", ttsRegion := some "r", tempDirPreexists := false
        preexistingFiles := []
        findNotesResp := .ok []
        notesInfoResp := .ok []
        soupGetText := fun s => s
        oracles := [] }).state = initState ∧
    (sync
      { query := "deck:Empty", source := "Front", target := "Audio"
        tempDir := "temp_audios", limit := none, overwrite := false }
      { ttsKey := some "k", ttsRegion := some "r", tempDirPreexists := false
        preexistingFiles := []
        findNotesResp := .ok []
        notesInfoResp := .ok []
        soupGetText := fun s => s
        oracles := [] }).notesInfoCalled = false ∧
    (sync
      { query := "deck:Empty", source := "Front", target := "Audio"
        tempDir := "temp_audios", limit := none, overwrite := false }
      { ttsKey := some "k", ttsRegion := some "r", tempDirPreexists := false
        preexistingFiles := []
        findNotesResp := .ok []
        notesInfoResp := .ok []
        soupGetText := fun s => s
        oracles := [] }).tempDirCreated = true ∧
    (sync
      { query := "deck:Empty", source := "Front", target := "Audio"
        tempDir := "temp_audios", limit := none, overwrite := false }
      { ttsKey := some "k", ttsRegion := some "r", tempDirPreexists := false
        preexistingFiles := []
        findNotesResp := .ok []
        notesInfoResp := .ok []
        soupGetText := fun s => s
        oracles := [] }).tempDirExistsAtEnd = false ∧
    (sync
      { query := "deck:Empty", source := "Front", target := "Audio"
        tempDir := "temp_audios", limit := none, overwrite := false }
      { ttsKey := some "k", ttsRegion := some "r", tempDirPreexists := false
        preexistingFiles := []
        findNotesResp := .ok []
        notesInfoResp := .ok []
        soupGetText := fun s => s
        oracles := [] }).leftoverTempFiles = [] :=
  empty_result_outcome
    { query := "deck:Empty", source := "Front", target := "Audio"
      tempDir := "temp_audios", limit := none, overwrite := false }
    { ttsKey := some "k", ttsRegion := some "r", tempDirPreexists := false
      preexistingFiles := []
      findNotesResp := .ok []
      notesInfoResp := .ok []
      soupGetText := fun s => s
      oracles := [] }
    rfl rfl

/-- Claim C9 (implicit): for every note whose synthesis succeeds, the
updated counter is incremented and the pause is taken even when both the
`storeMediaFile` and `updateNoteFields` RPCs fail — the client swallows
their errors — so the media library gains nothing and the note in the
store keeps its old target field while the reported updated count still
grows by one. -/
theorem updated_count_despite_rpc_failures (source target : String)
    (overwrite : Bool) (soup : String → String) (orc : NoteOracle)
    (st : RunState) (store : List Note) (n : Note)
    (h1 : (pyStrip (getField n target) != "" && !overwrite) = false)
    (h2 : (clean_html soup (pyStrip (getField n source)) == "") = false)
    (h3 : orc.ttsOk = true)
    (hstore : AnkiClient.invoke orc.storeResp = none)
    (hupd : AnkiClient.invoke orc.updateResp = none) :
    (processNote source target overwrite soup orc (st, store) n).1.success_count
      = st.success_count + 1 ∧
    (processNote source target overwrite soup orc (st, store) n).1.sleeps
      = st.sleeps + 1 ∧
    (processNote source target overwrite soup orc (st, store) n).1.mediaLibrary
      = st.mediaLibrary ∧
    (processNote source target overwrite soup orc (st, store) n).2 = store := by
  rw [processNote_eq_success source target overwrite soup orc st store n h1 h2 h3]
  refine ⟨rfl, rfl, ?_, ?_⟩
  · simp only [hstore]
  · simp only [hupd]

/-- Witness for C9: a note with succeeding synthesis but failing store and
update RPCs still bumps the success counter and sleeps, while neither the
media library nor the store changes. -/
theorem updated_count_despite_rpc_failures_witness :
    (processNote "Front" "Audio" false (fun s => s)
      { ttsOk := true, audioB64 := "Rg==",
        storeResp := .serviceError "collection unavailable",
        updateResp := .transportError "connection reset" }
      (initState, [{ noteId := 801, fields := [("Front", "uno"), ("Audio", "")] }])
      { noteId := 801, fields := [("Front", "uno"), ("Audio", "")] }).1.success_count
      = initState.success_count + 1 ∧
    (processNote "Front" "Audio" false (fun s => s)
      { ttsOk := true, audioB64 := "Rg==",
        storeResp := .serviceError "collection unavailable",
        updateResp := .transportError "connection reset" }
      (initState, [{ noteId := 801, fields := [("Front", "uno"), ("Audio", "")] }])
      { noteId := 801, fields := [("Front", "uno"), ("Audio", "")] }).1.sleeps
      = initState.sleeps + 1 ∧
    (processNote "Front" "Audio" false (fun s => s)
      { ttsOk := true, audioB64 := "Rg==",
        storeResp := .serviceError "collection unavailable",
        updateResp := .transportError "connection reset" }
      (initState, [{ noteId := 801, fields := [("Front", "uno"), ("Audio", "")] }])
      { noteId := 801, fields := [("Front", "uno"), ("Audio", "")] }).1.mediaLibrary
      = initState.mediaLibrary ∧
    (processNote "Front" "Audio" false (fun s => s)
      { ttsOk := true, audioB64 := "Rg==",
        storeResp := .serviceError "collection unavailable",
        updateResp := .transportError "connection reset" }
      (initState, [{ noteId := 801, fields := [("Front", "uno"), ("Audio", "")] }])
      { noteId := 801, fields := [("Front", "uno"), ("Audio", "")] }).2
      = [{ noteId := 801, fields := [("Front", "uno"), ("Audio", "")] }] :=
  updated_count_despite_rpc_failures "Front" "Audio" false (fun s => s)
    { ttsOk := true, audioB64 := "Rg==",
      storeResp := .serviceError "collection unavailable",
      updateResp := .transportError "connection reset" }
    initState [{ noteId := 801, fields := [("Front", "uno"), ("Audio", "")] }]
    { noteId := 801, fields := [("Front", "uno"), ("Audio", "")] }
    (by decide) (by decide) rfl rfl rfl

/-- Claim C10 (implicit): with credentials present, a pre-existing temp
directory is reused without error (`exist_ok=True`, the run proceeds past
`Init`) and the end-of-run cleanup removes the directory together with all
of its contents — pre-existing files included — on every exit path,
the empty-result path among them. -/
theorem preexisting_tempdir_removed (cfg : SyncConfig) (env : SyncEnv)
    (hcred : (pyFalsyStr env.ttsKey || pyFalsyStr env.ttsRegion) = false)
    (hpre : env.tempDirPreexists = true) :
    (sync cfg env).exitKind ≠ ExitKind.configError ∧
    (sync cfg env).tempDirExistsAtEnd = false ∧
    (sync cfg env).leftoverTempFiles = [] := by
  cases hf : AnkiClient.invoke env.findNotesResp with
  | none =>
      rw [sync_noNotes_none cfg env hcred hf]
      exact ⟨fun h => ExitKind.noConfusion h, rfl, rfl⟩
  | some ids =>
      cases ids with
      | nil =>
          rw [sync_noNotes_nil cfg env hcred hf]
          exact ⟨fun h => ExitKind.noConfusion h, rfl, rfl⟩
      | cons a t =>
          cases hi : AnkiClient.invoke env.notesInfoResp with
          | none =>
              rw [sync_crashed_eq cfg env (a :: t) hcred hf (by simp) hi]
              exact ⟨fun h => ExitKind.noConfusion h, rfl, rfl⟩
          | some notes =>
              rw [sync_run_eq cfg env (a :: t) notes hcred hf (by simp) hi]
              exact ⟨fun h => ExitKind.noConfusion h, rfl, rfl⟩

/-- Witness for C10: an empty-result run over a pre-existing temp directory
holding a stale file still ends with the directory and its contents
removed. -/
theorem preexisting_tempdir_removed_witness :
    (sync
      { query := "deck:Empty", source := "Front", target := "Audio"
        tempDir := "temp_audios", limit := none, overwrite := false }
      { ttsKey := some "k", ttsRegion := some "r", tempDirPreexists := true
        preexistingFiles := ["stale.mp3"]
        findNotesResp := .ok []
        notesInfoResp := .ok []
        soupGetText := fun s => s
        oracles := [] }).exitKind ≠ ExitKind.configError ∧
    (sync
      { query := "deck:Empty", source := "Front", target := "Audio"
        tempDir := "temp_audios", limit := none, overwrite := false }
      { ttsKey := some "k", ttsRegion := some "r", tempDirPreexists := true
        preexistingFiles := ["stale.mp3"]
        findNotesResp := .ok []
        notesInfoResp := .ok []
        soupGetText := fun s => s
        oracles := [] }).tempDirExistsAtEnd = false ∧
    (sync
      { query := "deck:Empty", source := "Front", target := "Audio"
        tempDir := "temp_audios", limit := none, overwrite := false }
      { ttsKey := some "k", ttsRegion := some "r", tempDirPreexists := true
        preexistingFiles := ["stale.mp3"]
        findNotesResp := .ok []
        notesInfoResp := .ok []
        soupGetText := fun s => s
        oracles := [] }).leftoverTempFiles = [] :=
  preexisting_tempdir_removed
    { query := "deck:Empty", source := "Front", target := "Audio"
      tempDir := "temp_audios", limit := none, overwrite := false }
    { ttsKey := some "k", ttsRegion := some "r", tempDirPreexists := true
      preexistingFiles := ["stale.mp3"]
      findNotesResp := .ok []
      notesInfoResp := .ok []
      soupGetText := fun s => s
      oracles := [] }
    rfl rfl

end AnkiAzVox
